import Mathlib

/-!
Shallow embedding of the `FileManager` component of the mindmap editor
(`src/fileManager.ts`).  Pure state is modelled by `FMState`; every
externally visible effect (status callbacks, the `onFileChanged` callback,
actual writes through a file handle, triggered downloads, showing the save
picker) is recorded in an event trace.  Asynchronous browser interactions
(pickers, writable streams, the wall clock) are resolved by an explicit
environment `Env` passed to each operation.  ISO-8601 timestamps are
modelled by natural numbers (the encoding is monotone in real time).
Both notification callbacks are modelled as registered, so the trace
records exactly the invocations the code would perform; the optional
`onAutoSave` payload-provider callback is tracked by a boolean flag as
`triggerAutoSave` branches on its presence.
-/

set_option autoImplicit false

namespace Mindmap

/-- The editor snapshot (`data: any`). The file manager never inspects it,
so it is modelled as an abstract token. -/
abbrev Payload := Nat

/-- `MindmapFileMetadata` from fileManager.ts. `created`/`modified` are
ISO timestamps, modelled as `Nat`. -/
structure MindmapFileMetadata where
  version : String
  appVersion : String
  fileName : String
  filePath : Option String
  created : Nat
  modified : Nat
  backupCount : Nat
  autoSave : Bool
deriving DecidableEq

/-- `FileManagerOptions` from fileManager.ts. -/
structure FileManagerOptions where
  defaultPath : String
  autoSaveInterval : Nat
  maxBackups : Nat
  enableBackups : Bool
deriving DecidableEq

/-- Defaults supplied by the constructor. -/
def defaultOptions : FileManagerOptions :=
  { defaultPath := "Documents/Mindmaps", autoSaveInterval := 3000,
    maxBackups := 5, enableBackups := true }

/-- A `FileSystemFileHandle`; `hasCreateWritable` models the
`createWritable in handle` capability probe (false for the mock handle
produced by the fallback open path). -/
structure FileHandle where
  name : String
  hasCreateWritable : Bool
deriving DecidableEq

/-- Metadata as it appears in a parsed JSON file, before validation.
A field checked dynamically by `validateFileFormat` (`version`,
`fileName`) is `some s` exactly when it is present with a string value;
the remaining fields are carried through untyped by the code and modelled
with their expected types. -/
structure RawMetadata where
  version : Option String
  fileName : Option String
  appVersion : String
  filePath : Option String
  created : Nat
  modified : Nat
  backupCount : Nat
  autoSave : Bool
deriving DecidableEq

/-- The `mindmap` member of a parsed file. `nodes`/`connections` are
`some l` exactly when present as arrays (`Array.isArray`); the element
contents are never inspected by the file manager. -/
structure RawMindmap where
  nodes : Option (List Unit)
  connections : Option (List Unit)
deriving DecidableEq

/-- A parsed (`JSON.parse`d) file container before validation; `none`
fields model absent or non-object members. -/
structure RawContainer where
  metadata : Option RawMetadata
  mindmap : Option RawMindmap
deriving DecidableEq

/-- `validateFileFormat`: requires truthy `metadata` and `mindmap`,
string `metadata.version` and `metadata.fileName`, and array
`mindmap.nodes` and `mindmap.connections`. -/
def validateFileFormat (fileData : RawContainer) : Bool :=
  match fileData.metadata, fileData.mindmap with
  | some meta, some mm =>
      meta.version.isSome && meta.fileName.isSome &&
      mm.nodes.isSome && mm.connections.isSome
  | _, _ => false

/-- The status values passed to `onSaveStatusChanged`. -/
inductive SaveStatus where
  | saved
  | saving
  | dirty
  | error
  | autoSaving
  | autoSaved
deriving DecidableEq

/-- Statuses for which `notifyCallbacks` suppresses `onFileChanged`. -/
def isAutoStatus : SaveStatus → Bool
  | SaveStatus.autoSaving => true
  | SaveStatus.autoSaved => true
  | _ => false

/-- The container serialized by `saveToHandle`/`downloadFile`:
`{ metadata: this.currentFile, mindmap: data }`.  `metadata` is `none`
when `this.currentFile` is null (serialized as JSON `null`). -/
structure WrittenContainer where
  metadata : Option MindmapFileMetadata
  mindmap : Payload
deriving DecidableEq

/-- Observable events of one operation, in order. -/
inductive Event where
  | fileChanged
  | statusChanged (status : SaveStatus)
  | savePickerShown (suggestedName : String)
  | written (handle : FileHandle) (container : WrittenContainer)
  | downloaded (container : WrittenContainer)
deriving DecidableEq

/-- `notifyCallbacks(fileData, status)`: `onFileChanged` fires only when
`fileData` is non-null and the status is not an auto-save status;
`onSaveStatusChanged` always fires. -/
def notifyCallbacks (hasFileData : Bool) (status : SaveStatus) : List Event :=
  (if hasFileData && !isAutoStatus status then [Event.fileChanged] else [])
    ++ [Event.statusChanged status]

/-- The mutable fields of a `FileManager` instance.  Timers are modelled
by their armed state: `autoSaveTimer` for the periodic interval timer,
`debounceTimer` as the absolute time at which the pending debounce
timeout would fire. -/
structure FMState where
  options : FileManagerOptions
  currentFile : Option MindmapFileMetadata
  currentFileHandle : Option FileHandle
  isDirty : Bool
  autoSaveTimer : Bool
  debounceTimer : Option Nat
  isAutoSaving : Bool
  hasOnAutoSave : Bool
deriving DecidableEq

/-- A freshly constructed `FileManager` (before `setCallbacks`). -/
def initialState (opts : FileManagerOptions) : FMState :=
  { options := opts, currentFile := none, currentFileHandle := none,
    isDirty := false, autoSaveTimer := false, debounceTimer := none,
    isAutoSaving := false, hasOnAutoSave := false }

/-- The result of `showOpenFilePicker` when a file is obtained: the
handle and the outcome of `JSON.parse` on its text (`none` models a
parse exception). -/
structure OpenPick where
  handle : FileHandle
  parsed : Option RawContainer
deriving DecidableEq

/-- The environment resolving one operation's external interactions. -/
structure Env where
  now : Nat
  openPick : Option OpenPick
  savePick : Option FileHandle
  writeOk : Bool
  autoSaveData : Payload
deriving DecidableEq

/-- Result of one operation: return value, post-state, event trace. -/
structure OpResult (α : Type) where
  value : α
  state : FMState
  trace : List Event
deriving DecidableEq

/-- `stopAutoSave`: clears the periodic interval timer. -/
def stopAutoSave (s : FMState) : FMState :=
  if s.autoSaveTimer then { s with autoSaveTimer := false } else s

/-- `startAutoSave`: stops any running periodic timer and re-arms it when
the current file has `autoSave` enabled. -/
def startAutoSave (s : FMState) : FMState :=
  let s1 := stopAutoSave s
  match s1.currentFile with
  | some cf => if cf.autoSave then { s1 with autoSaveTimer := true } else s1
  | none => s1

/-- JavaScript truthiness of the optional `filePath` string (absent and
empty strings are falsy). -/
def jsTruthyPath (p : Option String) : Bool :=
  match p with
  | some str => str != ""
  | none => false

/-- JavaScript `a || b` on an optional string. -/
def jsStrOr (a : Option String) (b : String) : String :=
  match a with
  | some str => if str = "" then b else str
  | none => b

/-- `file.name.replace(".json", "")`. -/
def stripJsonExt (name : String) : String := name.replace ".json" ""

/-- `createBackup`: bookkeeping only; increments `backupCount` capped at
`options.maxBackups`, when a truthy `filePath` exists. -/
def createBackup (s : FMState) : FMState :=
  match s.currentFile with
  | some cf =>
      if jsTruthyPath cf.filePath then
        let cf1 : MindmapFileMetadata :=
          { cf with backupCount := min (cf.backupCount + 1) s.options.maxBackups }
        { s with currentFile := some cf1 }
      else s
  | none => s

/-- `saveToHandle`: serializes `{metadata: this.currentFile, mindmap:
data}` and writes it through the handle's writable stream when the
handle supports one (otherwise it writes nothing and still reports
success).  A failing write is caught and reported as `false`. -/
def saveToHandle (s : FMState) (fileHandle : FileHandle) (env : Env) (data : Payload) :
    Bool × List Event :=
  let fileData : WrittenContainer := ⟨s.currentFile, data⟩
  if fileHandle.hasCreateWritable then
    if env.writeOk then (true, [Event.written fileHandle fileData]) else (false, [])
  else
    (true, [])

/-- `downloadFile`: triggers a browser download of the container. -/
def downloadFile (fileData : WrittenContainer) : List Event :=
  [Event.downloaded fileData]

/-- Conversion of typed metadata back to its parsed-JSON form, as a
reader of the written file would obtain it. -/
def metadataToRaw (m : MindmapFileMetadata) : RawMetadata :=
  { version := some m.version, fileName := some m.fileName,
    appVersion := m.appVersion, filePath := m.filePath, created := m.created,
    modified := m.modified, backupCount := m.backupCount, autoSave := m.autoSave }

/-- Reparsing a written container: its `metadata` member round-trips
(JSON `null` parses back to an absent object), while the opaque payload
parses to some unknown raw mindmap shape `mm`. -/
def reparseWritten (w : WrittenContainer) (mm : Option RawMindmap) : RawContainer :=
  ⟨w.metadata.map metadataToRaw, mm⟩

/-- The typed container returned by `createNewFile`. -/
structure MindmapFileData where
  metadata : MindmapFileMetadata
  mindmap : Payload
deriving DecidableEq

/-- Default empty payload built by `createNewFile` when no initial data
is supplied (opaque to the file manager). -/
def emptyMindmapPayload : Payload := 0

/-- `createNewFile`: fresh metadata (fileName "Untitled", `created =
modified = now`, `backupCount = 0`, `autoSave = true`), clears the stored
handle, clears the dirty flag, restarts the periodic timer and notifies
`saved` with the new container. -/
def createNewFile (s : FMState) (env : Env) (initialData : Option Payload) :
    OpResult MindmapFileData :=
  let meta : MindmapFileMetadata :=
    { version := "1.0.0", appVersion := "1.0.0", fileName := "Untitled",
      filePath := none, created := env.now, modified := env.now,
      backupCount := 0, autoSave := true }
  let fileData : MindmapFileData := ⟨meta, initialData.getD emptyMindmapPayload⟩
  let s1 := { s with currentFile := some meta, currentFileHandle := none, isDirty := false }
  let s2 := startAutoSave s1
  ⟨fileData, s2, notifyCallbacks true SaveStatus.saved⟩

/-- The value returned by a successful `openFile`: the parsed container
with its metadata updated in place. -/
structure LoadedFileData where
  metadata : MindmapFileMetadata
  mindmap : RawMindmap
deriving DecidableEq

/-- Adoption of parsed metadata as the current file's metadata.  The
`getD` defaults are unreachable whenever validation has succeeded, since
it requires `version` and `fileName` to be present strings. -/
def rawToMetadata (rm : RawMetadata) : MindmapFileMetadata :=
  { version := rm.version.getD "", appVersion := rm.appVersion,
    fileName := rm.fileName.getD "", filePath := rm.filePath,
    created := rm.created, modified := rm.modified,
    backupCount := rm.backupCount, autoSave := rm.autoSave }

/-- `openFile`: picker cancel returns null with no effects; a parse
exception or failed validation is caught, notifies `error`, and changes
no state; on success the metadata is adopted (with `modified := now` and
`fileName` derived from the file's name), the handle is stored, the
dirty flag cleared, the periodic timer restarted, and `saved` notified
with the loaded container. -/
def openFile (s : FMState) (env : Env) : OpResult (Option LoadedFileData) :=
  match env.openPick with
  | none => ⟨none, s, []⟩
  | some pick =>
    match pick.parsed with
    | none => ⟨none, s, notifyCallbacks false SaveStatus.error⟩
    | some fileData =>
      if validateFileFormat fileData then
        match fileData.metadata, fileData.mindmap with
        | some rawMeta, some rawMm =>
          let meta := { rawToMetadata rawMeta with
                        modified := env.now,
                        fileName := stripJsonExt pick.handle.name }
          let s1 := { s with currentFile := some meta,
                             currentFileHandle := some pick.handle, isDirty := false }
          let s2 := startAutoSave s1
          ⟨some ⟨meta, rawMm⟩, s2, notifyCallbacks true SaveStatus.saved⟩
        | _, _ =>
          -- unreachable: validation forces both members present
          ⟨none, s, notifyCallbacks false SaveStatus.error⟩
      else ⟨none, s, notifyCallbacks false SaveStatus.error⟩

/-- `saveAsFile`: shows the save picker with `suggestedName ||
currentFile?.fileName || "Untitled"`; cancel returns false with no state
change; otherwise writes through `saveToHandle` and, on success with a
current file present, updates `fileName`/`filePath` from the chosen
handle and stores it.  Neither the dirty flag nor `modified` is touched,
and a failed (non-throwing) write emits no status. -/
def saveAsFile (s : FMState) (env : Env) (data : Payload) (suggestedName : Option String) :
    OpResult Bool :=
  let fileName := jsStrOr suggestedName
      (jsStrOr (s.currentFile.map (fun cf => cf.fileName)) "Untitled")
  match env.savePick with
  | none => ⟨false, s, [Event.savePickerShown fileName]⟩
  | some fileHandle =>
    let wr := saveToHandle s fileHandle env data
    let s1 :=
      if wr.1 then
        match s.currentFile with
        | some cf =>
          { s with currentFile := some { cf with fileName := stripJsonExt fileHandle.name,
                                                 filePath := some fileHandle.name },
                   currentFileHandle := some fileHandle }
        | none => s
      else s
    ⟨wr.1, s1, Event.savePickerShown fileName :: wr.2⟩

/-- `saveCurrentFile`: with no current file, delegates to `saveAsFile`.
Otherwise: notifies `saving` (manual saves only), bumps the backup count
when backups are enabled and a truthy `filePath` exists, sets `modified
:= now`, then tries in order: (1) write through a stored handle that
supports writable streams, on success clearing the dirty flag and
notifying `auto-saved`/`saved`; (2) if auto-saving with no stored
handle, clear the dirty flag and notify `auto-saved` without writing;
(3) otherwise trigger a download, clear the dirty flag and notify
`saved`.  A failed handle write (caught inside `saveToHandle`) falls
through to steps 2-3. -/
def saveCurrentFile (s : FMState) (env : Env) (data : Payload) (isAutoSaveFlag : Bool) :
    OpResult Bool :=
  match s.currentFile with
  | none => saveAsFile s env data none
  | some cf0 =>
    let tr0 := if !isAutoSaveFlag then notifyCallbacks false SaveStatus.saving else []
    let s1 := if s.options.enableBackups && jsTruthyPath cf0.filePath then createBackup s else s
    let s2 := { s1 with currentFile :=
                  s1.currentFile.map (fun (cf : MindmapFileMetadata) => { cf with modified := env.now }) }
    let fileData : WrittenContainer := ⟨s2.currentFile, data⟩
    let handleAttempt : Option (Bool × List Event) :=
      match s2.currentFileHandle with
      | some h => if h.hasCreateWritable then some (saveToHandle s2 h env data) else none
      | none => none
    match handleAttempt with
    | some (true, wtr) =>
        ⟨true, { s2 with isDirty := false },
          tr0 ++ wtr ++
            notifyCallbacks true (if isAutoSaveFlag then SaveStatus.autoSaved else SaveStatus.saved)⟩
    | _ =>
      -- a failed handle write emitted no events; fall through
      if isAutoSaveFlag && s2.currentFileHandle.isNone then
        ⟨true, { s2 with isDirty := false }, tr0 ++ notifyCallbacks true SaveStatus.autoSaved⟩
      else
        ⟨true, { s2 with isDirty := false },
          tr0 ++ downloadFile fileData ++ notifyCallbacks true SaveStatus.saved⟩

/-- `markDirty`: on a clean-to-dirty transition notifies `dirty`; always
cancels any pending debounce timeout and re-arms it 500ms from now
(`debouncedAutoSave` inlined). -/
def markDirty (s : FMState) (now : Nat) : FMState × List Event :=
  if !s.isDirty then
    ({ s with isDirty := true, debounceTimer := some (now + 500) },
      notifyCallbacks false SaveStatus.dirty)
  else
    ({ s with debounceTimer := some (now + 500) }, [])

/-- `triggerAutoSave`: skipped unless dirty, with a payload-provider
callback registered, and no auto-save in flight; otherwise notifies
`auto-saving`, pulls the payload, calls `saveCurrentFile` with the
auto-save flag, notifies `error` on failure, and always clears
`isAutoSaving`. -/
def triggerAutoSave (s : FMState) (env : Env) : OpResult Unit :=
  if !s.isDirty || !s.hasOnAutoSave || s.isAutoSaving then ⟨(), s, []⟩
  else
    let s1 := { s with isAutoSaving := true }
    let r := saveCurrentFile s1 env env.autoSaveData true
    let trErr := if !r.value then notifyCallbacks false SaveStatus.error else []
    ⟨(), { r.state with isAutoSaving := false },
      notifyCallbacks false SaveStatus.autoSaving ++ r.trace ++ trErr⟩

/-- `destroy`: the cleanup entry point; it calls `stopAutoSave` and
nothing else. -/
def destroy (s : FMState) : FMState := stopAutoSave s

/-- Whether the pending debounce timeout fires strictly before handling
an event at time `t` (its deadline has been reached). -/
def debounceFiresBefore (s : FMState) (t : Nat) : Nat :=
  match s.debounceTimer with
  | some d => if d ≤ t then 1 else 0
  | none => 0

/-- Processes a burst of `markDirty` calls at the given times, counting
how many debounce timeouts reach their deadline (and hence fire
`triggerAutoSave`) during the burst. -/
def runBurst : FMState → List Nat → FMState × Nat
  | s, [] => (s, 0)
  | s, t :: ts =>
    let r := runBurst (markDirty s t).1 ts
    (r.1, debounceFiresBefore s t + r.2)

/-- All consecutive gaps from `prev` through the listed times are
shorter than the 500ms debounce window (times are non-decreasing). -/
def gapsOk : Nat → List Nat → Bool
  | _, [] => true
  | prev, t :: ts => decide (prev ≤ t) && decide (t < prev + 500) && gapsOk t ts

/-- One invocation of a public `FileManager` operation together with the
environment resolving its external interactions. -/
inductive Op where
  | newFile (env : Env) (initialData : Option Payload)
  | openExisting (env : Env)
  | saveAs (env : Env) (data : Payload) (suggestedName : Option String)
  | saveCurrent (env : Env) (data : Payload) (isAutoSaveFlag : Bool)
  | mark (now : Nat)

/-- State transition of one operation (return values and traces
discarded). -/
def applyOp (s : FMState) : Op → FMState
  | Op.newFile env ini => (createNewFile s env ini).state
  | Op.openExisting env => (openFile s env).state
  | Op.saveAs env d n => (saveAsFile s env d n).state
  | Op.saveCurrent env d f => (saveCurrentFile s env d f).state
  | Op.mark t => (markDirty s t).1

/-- Folds a sequence of operations over a state. -/
def applyOps (s : FMState) (ops : List Op) : FMState := ops.foldl applyOp s

/-- The backup-count invariant: the configured cap equals `mb` and the
current metadata's `backupCount` does not exceed it. -/
def backupInvB (mb : Nat) (s : FMState) : Bool :=
  (s.options.maxBackups == mb) &&
  (match s.currentFile with
   | some m => decide (m.backupCount ≤ mb)
   | none => true)

/-- An operation respects the cap `mb` when any file it successfully
opens carries a `backupCount` of at most `mb`. -/
def opRespectsCap (mb : Nat) : Op → Bool
  | Op.openExisting env =>
      match env.openPick with
      | some pick =>
        match pick.parsed with
        | some raw =>
          match raw.metadata with
          | some rm => decide (rm.backupCount ≤ mb)
          | none => true
        | none => true
      | none => true
  | _ => true

/-- Whether a trace contains an actual write (through a handle or via a
triggered download). -/
def hasWriteEvent (tr : List Event) : Bool :=
  tr.any (fun e =>
    match e with
    | Event.written _ _ => true
    | Event.downloaded _ => true
    | _ => false)

/-! Concrete fixtures used by witnesses and counterexamples. -/

/-- A native save handle as returned by `showSaveFilePicker`. -/
def sampleHandle : FileHandle := { name := "m.json", hasCreateWritable := true }

/-- Metadata of a document created at time 0 and last saved at time 10. -/
def sampleMeta : MindmapFileMetadata :=
  { version := "1.0.0", appVersion := "1.0.0", fileName := "m", filePath := none,
    created := 0, modified := 10, backupCount := 0, autoSave := true }

/-- An environment with no picker interaction, clock at 20. -/
def baseEnv : Env :=
  { now := 20, openPick := none, savePick := none, writeOk := true, autoSaveData := 7 }

/-- Environment where the save picker yields `sampleHandle`. -/
def saveEnv : Env := { baseEnv with savePick := some sampleHandle }

/-- Environment where the save picker yields `sampleHandle` but the
write through its stream fails. -/
def failWriteEnv : Env :=
  { baseEnv with savePick := some sampleHandle, writeOk := false }

/-- A dirty document with metadata but no stored handle. -/
def dirtyDocState : FMState :=
  { initialState defaultOptions with currentFile := some sampleMeta, isDirty := true }

/-- A dirty manager before any file was created or opened. -/
def dirtyNoFileState : FMState :=
  { initialState defaultOptions with isDirty := true }

/-- A dirty document whose handle is stored. -/
def dirtyHandleState : FMState :=
  { dirtyDocState with currentFileHandle := some sampleHandle }

/-- Well-typed metadata member for parsed-file fixtures. -/
def okMetaRaw : RawMetadata :=
  { version := some "1.0.0", fileName := some "x", appVersion := "1.0.0",
    filePath := none, created := 0, modified := 0, backupCount := 0, autoSave := true }

/-- A parsed mindmap member whose `nodes` field is missing. -/
def badMindmapRaw : RawMindmap := { nodes := none, connections := some [] }

/-- A parsed container lacking the `mindmap.nodes` array. -/
def invalidContainer : RawContainer :=
  { metadata := some okMetaRaw, mindmap := some badMindmapRaw }

/-- Environment in which the open picker yields a file whose content
fails structural validation. -/
def openInvalidEnv : Env :=
  { baseEnv with openPick := some { handle := sampleHandle, parsed := some invalidContainer } }

/-- A manager with both the periodic timer and a pending debounce
timeout armed (as after `createNewFile` followed by `markDirty` at time
400). -/
def armedTimersState : FMState :=
  { initialState defaultOptions with
      currentFile := some sampleMeta, autoSaveTimer := true, debounceTimer := some 900 }

/-- A dirty, pristine manager with the payload-provider callback
registered (the configuration `triggerAutoSave` requires). -/
def autoSaveReadyState : FMState :=
  { initialState defaultOptions with isDirty := true, hasOnAutoSave := true }

/-- Environment for a `createNewFile` at time 1. -/
def newFileEnv : Env :=
  { now := 1, openPick := none, savePick := none, writeOk := true, autoSaveData := 0 }

/-- Environment for a `saveAsFile` at time 2 whose picker yields
`sampleHandle`. -/
def saveAsEnv2 : Env := { newFileEnv with now := 2, savePick := some sampleHandle }

/-- Environment for repeated `saveCurrentFile` calls at time 3. -/
def repeatSaveEnv : Env := { newFileEnv with now := 3 }

/-- Create a file, pick a destination, then save it ten more times:
ten successful saves with backups enabled and a concrete file path. -/
def tenSavesOps : List Op :=
  Op.newFile newFileEnv none :: Op.saveAs saveAsEnv2 0 none ::
    List.replicate 10 (Op.saveCurrent repeatSaveEnv 0 false)

/-- Parsed metadata of a structurally valid file carrying
`backupCount = 100`. -/
def bigMetaRaw : RawMetadata :=
  { version := some "1.0.0", fileName := some "big", appVersion := "1.0.0",
    filePath := some "big.json", created := 0, modified := 0,
    backupCount := 100, autoSave := true }

/-- A structurally valid mindmap member. -/
def okMindmapRaw : RawMindmap := { nodes := some [], connections := some [] }

/-- A structurally valid container carrying `backupCount = 100`. -/
def bigContainer : RawContainer :=
  { metadata := some bigMetaRaw, mindmap := some okMindmapRaw }

/-- Environment whose open picker yields the `backupCount = 100` file. -/
def openBigEnv : Env :=
  { newFileEnv with openPick := some { handle := sampleHandle, parsed := some bigContainer } }

/-- Create a file, then open the valid file carrying `backupCount = 100`. -/
def capBreakOps : List Op := [Op.newFile newFileEnv none, Op.openExisting openBigEnv]

/-! Helper lemmas. -/

/-- `saveAsFile` always shows the save picker, with the computed
suggested name, as its first action. -/
theorem savePicker_in_saveAsFile (s : FMState) (env : Env) (data : Payload)
    (n : Option String) :
    Event.savePickerShown
        (jsStrOr n (jsStrOr (s.currentFile.map (fun cf => cf.fileName)) "Untitled"))
      ∈ (saveAsFile s env data n).trace := by
  unfold saveAsFile
  cases env.savePick <;> simp

/-- `startAutoSave` touches only the periodic-timer field. -/
theorem startAutoSave_fields (s : FMState) :
    (startAutoSave s).isDirty = s.isDirty ∧
    (startAutoSave s).currentFile = s.currentFile ∧
    (startAutoSave s).options = s.options ∧
    (startAutoSave s).currentFileHandle = s.currentFileHandle := by
  unfold startAutoSave stopAutoSave
  split <;> (dsimp only; split) <;> (try split) <;> simp_all

/-- `createBackup` never changes the stored handle. -/
@[simp] theorem createBackup_currentFileHandle (s : FMState) :
    (createBackup s).currentFileHandle = s.currentFileHandle := by
  unfold createBackup
  split <;> (try split) <;> rfl

/-- `createBackup` never changes the options. -/
@[simp] theorem createBackup_options (s : FMState) :
    (createBackup s).options = s.options := by
  unfold createBackup
  split <;> (try split) <;> rfl

/-- `createBackup` never changes the dirty flag. -/
@[simp] theorem createBackup_isDirty (s : FMState) :
    (createBackup s).isDirty = s.isDirty := by
  unfold createBackup
  split <;> (try split) <;> rfl

/-- `saveAsFile` never changes the dirty flag. -/
theorem saveAsFile_isDirty (s : FMState) (env : Env) (data : Payload)
    (n : Option String) :
    (saveAsFile s env data n).state.isDirty = s.isDirty := by
  unfold saveAsFile
  cases env.savePick <;> dsimp only <;> (try split) <;> (try split) <;> simp_all

/-- `markDirty` unconditionally cancels the pending debounce timeout
and re-arms it 500ms after the call. -/
theorem markDirty_rearms (s : FMState) (t : Nat) :
    ((markDirty s t).1).debounceTimer = some (t + 500) := by
  unfold markDirty
  split <;> rfl

/-- While gaps stay under the 500ms window, no pending debounce timeout
reaches its deadline, and the final pending one is scheduled 500ms
after the last call. -/
theorem runBurst_quiet : ∀ (ts : List Nat) (prev : Nat) (s : FMState),
    s.debounceTimer = some (prev + 500) → gapsOk prev ts = true →
    (runBurst s ts).2 = 0 ∧
    (runBurst s ts).1.debounceTimer = some (ts.getLastD prev + 500)
  | [], prev, s, h, _ => by simpa [runBurst] using h
  | t :: ts, prev, s, h, hg => by
    simp only [gapsOk, Bool.and_eq_true, decide_eq_true_eq] at hg
    obtain ⟨⟨h1, h2⟩, h3⟩ := hg
    have ih := runBurst_quiet ts t (markDirty s t).1 (markDirty_rearms s t) h3
    unfold runBurst
    refine ⟨?_, ?_⟩
    · simp only [debounceFiresBefore, h, ih.1]
      rw [if_neg (by omega)]
    · rw [List.getLastD_cons]
      exact ih.2

/-- With a current file present, `saveCurrentFile` always returns true
and clears the dirty flag (every non-delegating path does both). -/
theorem saveCurrentFile_some_result (s : FMState) (env : Env) (data : Payload)
    (flag : Bool) (m : MindmapFileMetadata) (hcf : s.currentFile = some m) :
    (saveCurrentFile s env data flag).value = true ∧
    (saveCurrentFile s env data flag).state.isDirty = false := by
  obtain ⟨opts, cf, cfh, dirty, ast, dbt, ias, cb⟩ := s
  dsimp only at hcf
  subst hcf
  rcases cfh with _ | h
  · cases flag <;>
      simp [saveCurrentFile, apply_ite FMState.currentFileHandle,
        apply_ite FMState.isDirty]
  · by_cases hcw : h.hasCreateWritable = true
    · by_cases hwo : env.writeOk = true <;>
        simp [saveCurrentFile, saveToHandle, hcw, hwo,
          apply_ite FMState.currentFileHandle, apply_ite FMState.isDirty]
    · simp [saveCurrentFile, saveToHandle, hcw,
        apply_ite FMState.currentFileHandle, apply_ite FMState.isDirty]

/-- With a current file present, `saveCurrentFile` leaves metadata equal
to the prior metadata except that `modified` becomes `env.now` and
`backupCount` is either unchanged or bumped-and-capped. -/
theorem saveCurrentFile_some_metadata (s : FMState) (env : Env) (data : Payload)
    (flag : Bool) (m : MindmapFileMetadata) (hcf : s.currentFile = some m) :
    ∃ bc, (bc = m.backupCount ∨ bc = min (m.backupCount + 1) s.options.maxBackups) ∧
      (saveCurrentFile s env data flag).state.currentFile =
        some { m with backupCount := bc, modified := env.now } := by
  obtain ⟨opts, cf, cfh, dirty, ast, dbt, ias, cb⟩ := s
  dsimp only at hcf ⊢
  subst hcf
  by_cases hb : (opts.enableBackups && jsTruthyPath m.filePath) = true
  case pos =>
    have hsplit := hb
    simp only [Bool.and_eq_true] at hsplit
    obtain ⟨hbe, hbp⟩ := hsplit
    refine ⟨min (m.backupCount + 1) opts.maxBackups, Or.inr rfl, ?_⟩
    rcases cfh with _ | h
    · cases flag <;>
        simp [saveCurrentFile, hbe, createBackup, hbp,
          apply_ite FMState.currentFileHandle, apply_ite FMState.currentFile]
    · by_cases hcw : h.hasCreateWritable = true
      · by_cases hwo : env.writeOk = true <;>
          simp [saveCurrentFile, hbe, createBackup, hbp, saveToHandle, hcw, hwo,
            apply_ite FMState.currentFileHandle, apply_ite FMState.currentFile]
      · simp [saveCurrentFile, hbe, createBackup, hbp, saveToHandle, hcw,
          apply_ite FMState.currentFileHandle, apply_ite FMState.currentFile]
  case neg =>
    refine ⟨m.backupCount, Or.inl rfl, ?_⟩
    rcases cfh with _ | h
    · cases flag <;>
        simp [saveCurrentFile, hb, apply_ite FMState.currentFileHandle,
          apply_ite FMState.currentFile]
    · by_cases hcw : h.hasCreateWritable = true
      · by_cases hwo : env.writeOk = true <;>
          simp [saveCurrentFile, hb, saveToHandle, hcw, hwo,
            apply_ite FMState.currentFileHandle, apply_ite FMState.currentFile]
      · simp [saveCurrentFile, hb, saveToHandle, hcw,
          apply_ite FMState.currentFileHandle, apply_ite FMState.currentFile]

/-- `saveCurrentFile` without a current file is exactly the delegation
to `saveAsFile`. -/
theorem saveCurrentFile_none (s : FMState) (env : Env) (data : Payload)
    (flag : Bool) (h : s.currentFile = none) :
    saveCurrentFile s env data flag = saveAsFile s env data none := by
  obtain ⟨opts, cf, cfh, dirty, ast, dbt, ias, cb⟩ := s
  dsimp only at h
  subst h
  rfl

/-- `saveCurrentFile` never changes the options. -/
theorem saveCurrentFile_options (s : FMState) (env : Env) (data : Payload)
    (flag : Bool) :
    (saveCurrentFile s env data flag).state.options = s.options := by
  obtain ⟨opts, cf, cfh, dirty, ast, dbt, ias, cb⟩ := s
  cases cf with
  | none =>
    show (saveAsFile _ env data none).state.options = _
    unfold saveAsFile
    cases env.savePick <;> dsimp only <;> (try split) <;> (try split) <;> rfl
  | some m =>
    rcases cfh with _ | h
    · cases flag <;>
        simp [saveCurrentFile, apply_ite FMState.currentFileHandle,
          apply_ite FMState.options]
    · by_cases hcw : h.hasCreateWritable = true
      · by_cases hwo : env.writeOk = true <;>
          simp [saveCurrentFile, saveToHandle, hcw, hwo,
            apply_ite FMState.currentFileHandle, apply_ite FMState.options]
      · simp [saveCurrentFile, saveToHandle, hcw,
          apply_ite FMState.currentFileHandle, apply_ite FMState.options]

/-- `markDirty` changes neither metadata nor options. -/
theorem markDirty_fields (s : FMState) (t : Nat) :
    ((markDirty s t).1).currentFile = s.currentFile ∧
    ((markDirty s t).1).options = s.options := by
  unfold markDirty
  split <;> exact ⟨rfl, rfl⟩

/-- `saveAsFile` preserves the options and the metadata backup count. -/
theorem saveAsFile_meta_fields (s : FMState) (env : Env) (data : Payload)
    (n : Option String) :
    (saveAsFile s env data n).state.options = s.options ∧
    (saveAsFile s env data n).state.currentFile.map (fun m => m.backupCount) =
      s.currentFile.map (fun m => m.backupCount) := by
  unfold saveAsFile
  cases env.savePick <;> dsimp only
  · exact ⟨rfl, rfl⟩
  · split
    · split <;> simp_all
    · exact ⟨rfl, rfl⟩

/-- `createNewFile` keeps the options and resets the backup count. -/
theorem createNewFile_meta (s : FMState) (env : Env) (ini : Option Payload) :
    (createNewFile s env ini).state.options = s.options ∧
    (createNewFile s env ini).state.currentFile.map (fun m => m.backupCount) =
      some 0 := by
  unfold createNewFile
  dsimp only
  constructor
  · rw [(startAutoSave_fields _).2.2.1]
  · rw [(startAutoSave_fields _).2.1]
    rfl

/-- `openFile` preserves the backup-count cap provided the opened file
itself respects it. -/
theorem openFile_cap (mb : Nat) (s : FMState) (env : Env)
    (hmb : s.options.maxBackups = mb)
    (hcap : ∀ m, s.currentFile = some m → m.backupCount ≤ mb)
    (hop : opRespectsCap mb (Op.openExisting env) = true) :
    (openFile s env).state.options.maxBackups = mb ∧
    ∀ m, (openFile s env).state.currentFile = some m → m.backupCount ≤ mb := by
  obtain ⟨noww, op, sp, wo, asd⟩ := env
  dsimp only [opRespectsCap] at hop
  cases op with
  | none => exact ⟨hmb, hcap⟩
  | some pick =>
    obtain ⟨ph, pp⟩ := pick
    cases pp with
    | none => exact ⟨hmb, hcap⟩
    | some raw =>
      obtain ⟨md, mm⟩ := raw
      dsimp only at hop
      cases md with
      | none =>
        have hval : validateFileFormat ⟨none, mm⟩ = false := by cases mm <;> rfl
        unfold openFile
        dsimp only
        rw [hval]
        exact ⟨hmb, hcap⟩
      | some rm =>
        cases mm with
        | none =>
          have hval : validateFileFormat ⟨some rm, none⟩ = false := rfl
          unfold openFile
          dsimp only
          rw [hval]
          exact ⟨hmb, hcap⟩
        | some rmm =>
          by_cases hval : validateFileFormat ⟨some rm, some rmm⟩ = true
          · unfold openFile
            dsimp only
            rw [if_pos hval]
            dsimp only
            constructor
            · rw [(startAutoSave_fields _).2.2.1]
              exact hmb
            · intro m hm
              rw [(startAutoSave_fields _).2.1] at hm
              dsimp only at hm
              rw [← Option.some.inj hm]
              exact of_decide_eq_true hop
          · unfold openFile
            dsimp only
            rw [if_neg hval]
            exact ⟨hmb, hcap⟩

/-- `saveCurrentFile` preserves the backup-count cap. -/
theorem saveCurrentFile_cap (mb : Nat) (s : FMState) (env : Env) (data : Payload)
    (flag : Bool) (hmb : s.options.maxBackups = mb)
    (hcap : ∀ m, s.currentFile = some m → m.backupCount ≤ mb) :
    (saveCurrentFile s env data flag).state.options.maxBackups = mb ∧
    ∀ m, (saveCurrentFile s env data flag).state.currentFile = some m →
      m.backupCount ≤ mb := by
  cases hcf : s.currentFile with
  | none =>
    rw [saveCurrentFile_none s env data flag hcf]
    obtain ⟨hopt, hbc⟩ := saveAsFile_meta_fields s env data none
    refine ⟨by rw [hopt, hmb], fun m hm => ?_⟩
    rw [hm, hcf] at hbc
    simp at hbc
  | some m0 =>
    refine ⟨by rw [saveCurrentFile_options, hmb], fun m hm => ?_⟩
    obtain ⟨bc, hor, hbc⟩ := saveCurrentFile_some_metadata s env data flag m0 hcf
    rw [hm] at hbc
    rw [Option.some.inj hbc]
    rcases hor with h1 | h2
    · dsimp only
      rw [h1]
      exact hcap m0 hcf
    · dsimp only
      rw [h2, hmb]
      exact min_le_right _ _

/-- `backupInvB` unfolded to a propositional invariant. -/
theorem backupInvB_iff (mb : Nat) (s : FMState) :
    backupInvB mb s = true ↔
      (s.options.maxBackups = mb ∧
        ∀ m, s.currentFile = some m → m.backupCount ≤ mb) := by
  unfold backupInvB
  cases hc : s.currentFile <;> simp [hc]

/-- Each operation preserves the backup-count invariant (for `openFile`,
provided the opened file respects the cap). -/
theorem applyOp_preserves_cap (mb : Nat) (s : FMState) (op : Op)
    (hinv : backupInvB mb s = true) (hop : opRespectsCap mb op = true) :
    backupInvB mb (applyOp s op) = true := by
  rw [backupInvB_iff] at hinv ⊢
  obtain ⟨hmb, hcap⟩ := hinv
  cases op with
  | newFile env ini =>
    dsimp only [applyOp]
    obtain ⟨hopt, hbc⟩ := createNewFile_meta s env ini
    refine ⟨by rw [hopt, hmb], fun m hm => ?_⟩
    rw [hm] at hbc
    simp only [Option.map_some', Option.some.injEq] at hbc
    omega
  | openExisting env =>
    dsimp only [applyOp]
    exact openFile_cap mb s env hmb hcap hop
  | saveAs env d n =>
    dsimp only [applyOp]
    obtain ⟨hopt, hbc⟩ := saveAsFile_meta_fields s env d n
    refine ⟨by rw [hopt, hmb], fun m hm => ?_⟩
    rw [hm] at hbc
    cases hc : s.currentFile with
    | none => rw [hc] at hbc; simp at hbc
    | some m0 =>
      rw [hc] at hbc
      simp only [Option.map_some', Option.some.injEq] at hbc
      have := hcap m0 hc
      omega
  | saveCurrent env d f =>
    dsimp only [applyOp]
    exact saveCurrentFile_cap mb s env d f hmb hcap
  | mark t =>
    dsimp only [applyOp]
    obtain ⟨hcf2, hopt⟩ := markDirty_fields s t
    exact ⟨by rw [hopt, hmb], fun m hm => hcap m (by rw [← hcf2]; exact hm)⟩

/-- The invariant is preserved by whole operation sequences. -/
theorem applyOps_preserves_cap (mb : Nat) : ∀ (ops : List Op) (s : FMState),
    backupInvB mb s = true → (∀ op ∈ ops, opRespectsCap mb op = true) →
    backupInvB mb (applyOps s ops) = true
  | [], s, h, _ => h
  | op :: ops, s, h, hops =>
    applyOps_preserves_cap mb ops (applyOp s op)
      (applyOp_preserves_cap mb s op h (hops op (List.mem_cons_self op ops)))
      (fun o ho => hops o (List.mem_cons_of_mem op ho))

/-! Claim theorems. -/

/-- Claim C7: every `markDirty` call cancels any pending debounce
timeout and re-arms it for 500ms later; hence, over any burst of
`markDirty` calls starting with no pending timeout whose consecutive
gaps are all shorter than 500ms, no debounce timeout fires during the
burst, and afterwards exactly one timeout is pending, scheduled 500ms
after the last call — so exactly one `triggerAutoSave` fires from the
debounce path, strictly after the burst ends. -/
theorem markDirty_coalesces_burst (s : FMState) (t0 : Nat) (ts : List Nat)
    (h0 : s.debounceTimer = none) (hg : gapsOk t0 ts = true) :
    (∀ (s' : FMState) (t : Nat), ((markDirty s' t).1).debounceTimer = some (t + 500)) ∧
    (runBurst s (t0 :: ts)).2 = 0 ∧
    (runBurst s (t0 :: ts)).1.debounceTimer = some (ts.getLastD t0 + 500) ∧
    ts.getLastD t0 < ts.getLastD t0 + 500 := by
  have hq := runBurst_quiet ts t0 (markDirty s t0).1 (markDirty_rearms s t0) hg
  refine ⟨markDirty_rearms, ?_, ?_, by omega⟩
  · show debounceFiresBefore s t0 + (runBurst (markDirty s t0).1 ts).2 = 0
    simp [debounceFiresBefore, h0, hq.1]
  · exact hq.2

/-- Witness for C7: a three-call burst at times 0, 100, 200 fires no
debounce timeout during the burst and leaves one pending at 700. -/
theorem markDirty_coalesces_burst_witness :
    (runBurst (initialState defaultOptions) [0, 100, 200]).2 = 0 ∧
    (runBurst (initialState defaultOptions) [0, 100, 200]).1.debounceTimer = some 700 :=
  have h := markDirty_coalesces_burst (initialState defaultOptions) 0 [100, 200]
    rfl (by decide)
  ⟨h.2.1, h.2.2.1⟩

/-- Claim C1 (amended): whenever `saveCurrentFile` returns false the
dirty flag keeps its prior (true) value, and whenever the call takes
the flag from true to false it returned true and either an actual write
occurred (through the handle or via download) or the call was the
auto-save-without-handle path, which clears the flag with no write
at all. -/
theorem dirty_flag_discipline (s : FMState) (env : Env) (data : Payload) (flag : Bool)
    (hd : s.isDirty = true) :
    ((saveCurrentFile s env data flag).value = false →
      (saveCurrentFile s env data flag).state.isDirty = true) ∧
    ((saveCurrentFile s env data flag).state.isDirty = false →
      (saveCurrentFile s env data flag).value = true ∧
      (hasWriteEvent (saveCurrentFile s env data flag).trace = true ∨
        (flag = true ∧ s.currentFileHandle = none))) := by
  obtain ⟨opts, cf, cfh, dirty, ast, dbt, ias, cb⟩ := s
  dsimp only at hd
  subst hd
  cases cf with
  | none =>
    have hod : (saveCurrentFile ⟨opts, none, cfh, true, ast, dbt, ias, cb⟩ env data flag).state.isDirty = true := by
      show (saveAsFile ⟨opts, none, cfh, true, ast, dbt, ias, cb⟩ env data none).state.isDirty = true
      rw [saveAsFile_isDirty]
    exact ⟨fun _ => hod, fun hfalse => absurd (hod.symm.trans hfalse) (by simp)⟩
  | some m =>
    rcases cfh with _ | h
    · cases flag <;>
        constructor <;>
          simp [saveCurrentFile, hasWriteEvent, downloadFile, notifyCallbacks,
            isAutoStatus, List.any_append, apply_ite FMState.currentFileHandle,
            apply_ite FMState.isDirty, apply_ite FMState.options]
    · by_cases hcw : h.hasCreateWritable = true
      · by_cases hwo : env.writeOk = true
        · constructor <;>
            simp [saveCurrentFile, saveToHandle, hcw, hwo, hasWriteEvent,
              notifyCallbacks, isAutoStatus, List.any_append,
              apply_ite FMState.currentFileHandle, apply_ite FMState.isDirty,
              apply_ite FMState.options]
        · constructor <;>
            simp [saveCurrentFile, saveToHandle, hcw, hwo, hasWriteEvent,
              downloadFile, notifyCallbacks, isAutoStatus, List.any_append,
              apply_ite FMState.currentFileHandle, apply_ite FMState.isDirty,
              apply_ite FMState.options]
      · constructor <;>
          simp [saveCurrentFile, saveToHandle, hcw, hasWriteEvent, downloadFile,
            notifyCallbacks, isAutoStatus, List.any_append,
            apply_ite FMState.currentFileHandle, apply_ite FMState.isDirty,
            apply_ite FMState.options]

/-- Witness for C1 at a concrete manual save through a stored handle. -/
theorem dirty_flag_discipline_witness :
    (saveCurrentFile dirtyHandleState saveEnv 7 false).value = true ∧
    (hasWriteEvent (saveCurrentFile dirtyHandleState saveEnv 7 false).trace = true ∨
      (false = true ∧ dirtyHandleState.currentFileHandle = none)) :=
  (dirty_flag_discipline dirtyHandleState saveEnv 7 false rfl).2 (by decide)

/-- Counterexample to claim C1 as stated: an auto-save with metadata
present but no stored handle clears the dirty flag and returns true
although no write at all (neither through a handle nor via download)
occurred. -/
theorem autosave_clears_dirty_without_write :
    dirtyDocState.isDirty = true ∧
    (saveCurrentFile dirtyDocState baseEnv 7 true).value = true ∧
    (saveCurrentFile dirtyDocState baseEnv 7 true).state.isDirty = false ∧
    hasWriteEvent (saveCurrentFile dirtyDocState baseEnv 7 true).trace = false := by
  decide

/-- Claim C2 (amended): `isDirty` is false immediately after
`createNewFile`, and after any `saveCurrentFile` that returns true while
a current file exists; but a successful `saveAsFile` — and hence the
delegation taken by `saveCurrentFile` when no current file exists —
leaves the dirty flag exactly as it was instead of clearing it. -/
theorem save_paths_dirty_behavior (s : FMState) (env : Env) (data : Payload)
    (flag : Bool) (ini : Option Payload) (n : Option String) :
    (createNewFile s env ini).state.isDirty = false ∧
    (s.currentFile.isSome = true →
      (saveCurrentFile s env data flag).state.isDirty = false) ∧
    (saveAsFile s env data n).state.isDirty = s.isDirty := by
  refine ⟨?_, fun hsome => ?_, saveAsFile_isDirty s env data n⟩
  · show (startAutoSave _).isDirty = false
    rw [(startAutoSave_fields _).1]
  · obtain ⟨m, hm⟩ := Option.isSome_iff_exists.mp hsome
    exact (saveCurrentFile_some_result s env data flag m hm).2

/-- Witness for C2: a concrete save of an existing document clears the
dirty flag. -/
theorem save_paths_dirty_behavior_witness :
    (saveCurrentFile dirtyDocState saveEnv 7 false).state.isDirty = false :=
  (save_paths_dirty_behavior dirtyDocState saveEnv 7 false none none).2.1 (by decide)

/-- Counterexample to claim C2 as stated: a `saveAsFile` that returns
true (picker yields a writable handle, write succeeds) leaves `isDirty`
at its prior value true. -/
theorem saveAs_success_leaves_dirty :
    (saveAsFile dirtyDocState saveEnv 7 none).value = true ∧
    (saveAsFile dirtyDocState saveEnv 7 none).state.isDirty = true := by
  decide

/-- Claim C3 (amended): with a current file present, an auto-save that
either has no stored handle or whose stored handle supports writable
streams and whose write succeeds never invokes `onFileChanged` and emits
the `auto-saved` status; when the handle write fails (or the handle has
no writable stream), the call instead falls through to the download
path, emitting `saved` and invoking `onFileChanged`. -/
theorem autosave_callback_contract (s : FMState) (env : Env) (data : Payload)
    (m : MindmapFileMetadata) (hcf : s.currentFile = some m)
    (hok : s.currentFileHandle = none ∨
      ∃ h, s.currentFileHandle = some h ∧ h.hasCreateWritable = true ∧
        env.writeOk = true) :
    (saveCurrentFile s env data true).value = true ∧
    Event.fileChanged ∉ (saveCurrentFile s env data true).trace ∧
    Event.statusChanged SaveStatus.autoSaved ∈ (saveCurrentFile s env data true).trace := by
  obtain ⟨opts, cf, cfh, dirty, ast, dbt, ias, cb⟩ := s
  dsimp only at hcf hok
  subst hcf
  rcases hok with hnone | ⟨h, hh, hcw, hwo⟩
  · subst hnone
    simp [saveCurrentFile, notifyCallbacks, isAutoStatus,
      apply_ite FMState.currentFileHandle]
  · subst hh
    simp [saveCurrentFile, saveToHandle, hcw, hwo, notifyCallbacks, isAutoStatus,
      apply_ite FMState.currentFileHandle]

/-- Witness for C3: concrete no-handle auto-save. -/
theorem autosave_callback_contract_witness :
    (saveCurrentFile dirtyDocState baseEnv 7 true).value = true ∧
    Event.fileChanged ∉ (saveCurrentFile dirtyDocState baseEnv 7 true).trace ∧
    Event.statusChanged SaveStatus.autoSaved ∈
      (saveCurrentFile dirtyDocState baseEnv 7 true).trace :=
  autosave_callback_contract dirtyDocState baseEnv 7 sampleMeta rfl (Or.inl rfl)

/-- Counterexample to claim C3 as stated: an auto-save through a stored
handle whose write fails falls through to the download path; the call
returns true but emits `saved` (never `auto-saved`) and invokes
`onFileChanged` during an auto-save. -/
theorem autosave_fallthrough_emits_saved :
    (saveCurrentFile dirtyHandleState failWriteEnv 7 true).value = true ∧
    Event.fileChanged ∈ (saveCurrentFile dirtyHandleState failWriteEnv 7 true).trace ∧
    Event.statusChanged SaveStatus.saved ∈
      (saveCurrentFile dirtyHandleState failWriteEnv 7 true).trace ∧
    Event.statusChanged SaveStatus.autoSaved ∉
      (saveCurrentFile dirtyHandleState failWriteEnv 7 true).trace := by
  decide

/-- Claim C4 (amended): every `saveCurrentFile` on an existing current
file returns true, clears the dirty flag, and sets `metadata.modified`
to the current clock value, strictly greater than its prior value
whenever the clock has advanced past it; the delegating call without a
current file can return true while clearing nothing (see the
counterexample). -/
theorem save_success_updates_modified (s : FMState) (env : Env) (data : Payload)
    (flag : Bool) (m : MindmapFileMetadata) (hcf : s.currentFile = some m)
    (hclock : m.modified < env.now) :
    (saveCurrentFile s env data flag).value = true ∧
    (saveCurrentFile s env data flag).state.isDirty = false ∧
    ∃ m2, (saveCurrentFile s env data flag).state.currentFile = some m2 ∧
      m2.modified = env.now ∧ m.modified < m2.modified := by
  obtain ⟨bc, _, hbc⟩ := saveCurrentFile_some_metadata s env data flag m hcf
  exact ⟨(saveCurrentFile_some_result s env data flag m hcf).1,
    (saveCurrentFile_some_result s env data flag m hcf).2,
    { m with backupCount := bc, modified := env.now }, hbc, rfl, hclock⟩

/-- Witness for C4: concrete manual save through a stored handle with
the clock past the prior `modified`. -/
theorem save_success_updates_modified_witness :
    (saveCurrentFile dirtyHandleState saveEnv 7 false).value = true ∧
    (saveCurrentFile dirtyHandleState saveEnv 7 false).state.isDirty = false ∧
    ∃ m2, (saveCurrentFile dirtyHandleState saveEnv 7 false).state.currentFile = some m2 ∧
      m2.modified = saveEnv.now ∧ sampleMeta.modified < m2.modified :=
  save_success_updates_modified dirtyHandleState saveEnv 7 false sampleMeta rfl
    (by decide)

/-- Counterexample to claim C4 as stated: when no current file exists,
`saveCurrentFile` delegates to `saveAsFile`, which can return true while
the dirty flag stays true and no stored metadata (hence no `modified`
timestamp) exists at all. -/
theorem delegated_save_keeps_dirty :
    (saveCurrentFile dirtyNoFileState saveEnv 7 false).value = true ∧
    (saveCurrentFile dirtyNoFileState saveEnv 7 false).state.isDirty = true ∧
    (saveCurrentFile dirtyNoFileState saveEnv 7 false).state.currentFile = none := by
  decide

/-- Claim C6: openFile's failure contract.  If the user cancels the
picker, `openFile` returns `none` with no state change and no
notification; if the obtained file's content fails structural
validation, `openFile` returns `none`, emits only the `error` status,
and leaves the state (in particular `currentFile` and
`currentFileHandle`) unchanged. -/
theorem openFile_failure_contract (s : FMState) (envC envV : Env) (pick : OpenPick)
    (raw : RawContainer)
    (hC : envC.openPick = none)
    (hV : envV.openPick = some pick) (hp : pick.parsed = some raw)
    (hval : validateFileFormat raw = false) :
    openFile s envC = ⟨none, s, []⟩ ∧
    openFile s envV = ⟨none, s, [Event.statusChanged SaveStatus.error]⟩ := by
  constructor
  · simp [openFile, hC]
  · simp [openFile, hV, hp, hval, notifyCallbacks, isAutoStatus]

/-- Witness for C6 at a concrete cancelled pick and a concrete invalid
file. -/
theorem openFile_failure_contract_witness :
    openFile dirtyDocState baseEnv = ⟨none, dirtyDocState, []⟩ ∧
    openFile dirtyDocState openInvalidEnv =
      ⟨none, dirtyDocState, [Event.statusChanged SaveStatus.error]⟩ :=
  openFile_failure_contract dirtyDocState baseEnv openInvalidEnv
    { handle := sampleHandle, parsed := some invalidContainer } invalidContainer
    rfl rfl rfl (by decide)

/-- Claim C8 (code bug): `destroy` only calls `stopAutoSave`, so while
the periodic interval timer is always cleared, a pending debounce
timeout survives `destroy` untouched; at the concrete armed state the
debounce timeout is still scheduled for time 900 afterwards, so
`triggerAutoSave` can still fire after teardown. -/
theorem destroy_keeps_debounce_armed :
    (∀ s : FMState,
      (destroy s).autoSaveTimer = false ∧ (destroy s).debounceTimer = s.debounceTimer) ∧
    (destroy armedTimersState).debounceTimer = some 900 ∧
    armedTimersState.debounceTimer = some 900 := by
  refine ⟨fun s => ?_, by decide, by decide⟩
  unfold destroy stopAutoSave
  split <;> simp_all

/-- Claim C9: a `saveAsFile` that obtains a destination while
`currentFile` is null writes a container whose `metadata` member is
null, leaves the whole state (fileName, filePath, stored handle)
untouched while still returning true, and the written file fails
`validateFileFormat` when reopened, whatever its payload parses to. -/
theorem saveAs_no_metadata_writes_null (s : FMState) (env : Env) (data : Payload)
    (h : FileHandle)
    (hcf : s.currentFile = none) (hp : env.savePick = some h)
    (hw : h.hasCreateWritable = true) (hok : env.writeOk = true) :
    saveAsFile s env data none =
      ⟨true, s, [Event.savePickerShown "Untitled", Event.written h ⟨none, data⟩]⟩ ∧
    ∀ mm, validateFileFormat (reparseWritten ⟨none, data⟩ mm) = false := by
  constructor
  · simp [saveAsFile, hp, hcf, saveToHandle, hw, hok, jsStrOr]
  · intro mm
    cases mm <;> rfl

/-- Witness for C9: concrete first-ever save through the picker. -/
theorem saveAs_no_metadata_writes_null_witness :
    saveAsFile dirtyNoFileState saveEnv 7 none =
      ⟨true, dirtyNoFileState,
        [Event.savePickerShown "Untitled", Event.written sampleHandle ⟨none, 7⟩]⟩ ∧
    ∀ mm, validateFileFormat (reparseWritten ⟨none, 7⟩ mm) = false :=
  saveAs_no_metadata_writes_null dirtyNoFileState saveEnv 7 sampleHandle rfl rfl rfl rfl

/-- Claim C10: when the debounced auto-save runs while no file has been
created or opened (dirty, payload-provider registered, no auto-save in
flight, `currentFile` null), `triggerAutoSave` proceeds into
`saveCurrentFile`, which delegates to `saveAsFile` and hence shows the
user-facing save picker from an auto-save instead of skipping. -/
theorem autosave_invokes_save_picker (s : FMState) (env : Env)
    (hd : s.isDirty = true) (hcb : s.hasOnAutoSave = true)
    (hip : s.isAutoSaving = false) (hcf : s.currentFile = none) :
    Event.statusChanged SaveStatus.autoSaving ∈ (triggerAutoSave s env).trace ∧
    Event.savePickerShown "Untitled" ∈ (triggerAutoSave s env).trace := by
  obtain ⟨opts, cf, cfh, dirty, ast, dbt, ias, cb⟩ := s
  dsimp only at hd hcb hip hcf
  subst hd hcb hip hcf
  unfold triggerAutoSave saveCurrentFile saveAsFile
  cases hsp : env.savePick <;>
    simp [hsp, notifyCallbacks, isAutoStatus, saveToHandle, jsStrOr]

/-- Claim C5 (amended): `createBackup` caps the counter at
`options.maxBackups`, so the backup-count invariant is preserved by
every sequence of the five operations provided each successfully opened
file itself carries a `backupCount` within the cap — `openFile` adopts
the opened file's metadata without checking it, which is how the bound
can be exceeded (see the counterexample).  Concretely, with
`maxBackups = 5`, ten successful saves with backups enabled and a
concrete file path leave `backupCount = 5`. -/
theorem backup_count_bounded :
    (∀ (mb : Nat) (s : FMState) (ops : List Op), backupInvB mb s = true →
      (∀ op ∈ ops, opRespectsCap mb op = true) →
      backupInvB mb (applyOps s ops) = true) ∧
    (applyOps (initialState defaultOptions) tenSavesOps).currentFile.map
        (fun m => m.backupCount) = some 5 ∧
    (applyOps (initialState defaultOptions) tenSavesOps).options.maxBackups = 5 :=
  ⟨fun mb s ops h hops => applyOps_preserves_cap mb ops s h hops,
    by decide, by decide⟩

/-- Witness for C5: the invariant holds concretely after the ten-save
scenario. -/
theorem backup_count_bounded_witness :
    backupInvB 5 (applyOps (initialState defaultOptions) tenSavesOps) = true :=
  backup_count_bounded.1 5 (initialState defaultOptions) tenSavesOps
    (by decide) (by decide)

/-- Counterexample to claim C5 as stated: opening a structurally valid
file that records `backupCount = 100` puts the manager, configured with
`maxBackups = 5`, into a reachable state whose metadata carries
`backupCount = 100 > 5`. -/
theorem openFile_exceeds_backup_cap :
    (applyOps (initialState defaultOptions) capBreakOps).options.maxBackups = 5 ∧
    (applyOps (initialState defaultOptions) capBreakOps).currentFile.map
        (fun m => m.backupCount) = some 100 := by
  decide

/-- Witness for C10: concrete auto-save before any file exists. -/
theorem autosave_invokes_save_picker_witness :
    Event.statusChanged SaveStatus.autoSaving ∈ (triggerAutoSave autoSaveReadyState saveEnv).trace ∧
    Event.savePickerShown "Untitled" ∈ (triggerAutoSave autoSaveReadyState saveEnv).trace :=
  autosave_invokes_save_picker autoSaveReadyState saveEnv rfl rfl rfl rfl

end Mindmap
